import Mathlib

/-!
Shallow embedding of the compliance checklist engine of
`app/financial_advisor_agent/sub_agents/compliance_checker_agent/compliance_checklist_tool.py`,
together with theorems about its documented behaviour.

Text is modelled as `List Char` (Python `str` indexing and slicing are by
code point).  Python's `str.lower`, substring containment (`in`), `str.strip`,
and the fragment of `re` actually used by the prohibited-content patterns
(literals, `\s+`, `\d+`, `?` on a single character, alternation groups and a
negative lookahead) are embedded below with Python's leftmost, left-biased,
greedy backtracking semantics.
-/

/-- Python `\s` (ASCII range, as used by the patterns of this tool). -/
def isWsChar (c : Char) : Bool :=
  c = ' ' || c = '\t' || c = '\n' || c = '\r' || c = '\x0b' || c = '\x0c'

/-- Python `\d` (ASCII digits). -/
def isDigitChar (c : Char) : Bool :=
  '0' ≤ c && c ≤ '9'

/-- `str.lower` on the character list of a string (ASCII case folding). -/
def lowerStr (s : String) : List Char :=
  s.data.map Char.toLower

/-- `d` is the pattern list, tested as a prefix of the subject list. -/
def isPrefixL : List Char → List Char → Bool
  | [], _ => true
  | _ :: _, [] => false
  | c :: cs, d :: ds => d == c && isPrefixL cs ds

/-- Python substring containment `pat in s`. -/
def containsL (pat : List Char) : List Char → Bool
  | [] => isPrefixL pat []
  | d :: ds => isPrefixL pat (d :: ds) || containsL pat ds

/-- Python `str.strip()` (whitespace stripped from both ends). -/
def stripL (s : List Char) : List Char :=
  ((s.dropWhile isWsChar).reverse.dropWhile isWsChar).reverse

/-- The regex fragment used by `PROHIBITED_PATTERNS`: literal characters,
one-or-more of a character class (`\s+`, `\d+`), an optional single character
(`?`), sequencing, alternation and negative lookahead. -/
inductive RE where
  | eps : RE
  | lit : Char → RE
  | plusCls : (Char → Bool) → RE
  | optChar : Char → RE
  | seq : RE → RE → RE
  | alt : RE → RE → RE
  | nlk : RE → RE

/-- Greedy zero-or-more of a character class: the returned suffixes are in
backtracking priority order, longest consumption first, never failing. -/
def starCls (p : Char → Bool) : List Char → List (List Char)
  | [] => [[]]
  | c :: rest => if p c then starCls p rest ++ [c :: rest] else [c :: rest]

/-- Backtracking matcher: all suffixes remaining after a match of `r`, in
Python `re`'s backtracking priority order (the head is the match Python
picks). -/
def run : RE → List Char → List (List Char)
  | .eps, s => [s]
  | .lit _, [] => []
  | .lit c, d :: rest => if d == c then [rest] else []
  | .plusCls _, [] => []
  | .plusCls p, c :: rest => if p c then starCls p rest else []
  | .optChar _, [] => [[]]
  | .optChar c, d :: rest => if d == c then [rest, d :: rest] else [d :: rest]
  | .seq a b, s => (run a s).flatMap (run b)
  | .alt a b, s => run a s ++ run b s
  | .nlk a, s => if run a s = [] then [s] else []

/-- Sequence of literal characters. -/
def litsL : List Char → RE
  | [] => .eps
  | c :: cs => .seq (.lit c) (litsL cs)

/-- Literal word pattern. -/
def lits (s : String) : RE := litsL s.data

/-- Right-nested sequencing of a pattern list. -/
def rseq (l : List RE) : RE := l.foldr RE.seq RE.eps

/-- Left-biased alternation of a pattern list (Python tries alternatives in
source order). -/
def alts : List RE → RE
  | [] => .eps
  | [r] => r
  | r :: rs => .alt r (alts rs)

/-- `\s+`. -/
def wsPlus : RE := RE.plusCls isWsChar

/-- `re.finditer`: non-overlapping matches, scanning left to right, taking at
each position the backtracking-first match and continuing at its end (an
empty match advances one character).  Each element is
`(start, end, matched characters)`.  `fuel` bounds the recursion; it is
always called with more fuel than the subject length. -/
def findIterAux (r : RE) : Nat → List Char → Nat → List (Nat × Nat × List Char)
  | 0, _, _ => []
  | fuel + 1, s, pos =>
    match (run r s).head? with
    | some rem =>
      if s.length - rem.length = 0 then
        (pos, pos, []) ::
          (match s with
           | [] => []
           | _ :: rest => findIterAux r fuel rest (pos + 1))
      else
        (pos, pos + (s.length - rem.length), s.take (s.length - rem.length)) ::
          findIterAux r fuel (s.drop (s.length - rem.length))
            (pos + (s.length - rem.length))
    | none =>
      match s with
      | [] => []
      | _ :: rest => findIterAux r fuel rest (pos + 1)

/-- All matches of `r` in `s`. -/
def findIter (r : RE) (s : List Char) : List (Nat × Nat × List Char) :=
  findIterAux r (s.length + 1) s 0

/-- The pattern `you\s+should\s+(buy|sell|purchase)\s+(?!consider|evaluate)`
of the `unlicensed_advice` category. -/
def unlicensedAdviceRE : RE :=
  rseq [lits "you", wsPlus, lits "should", wsPlus,
        alts [lits "buy", lits "sell", lits "purchase"], wsPlus,
        .nlk (alts [lits "consider", lits "evaluate"])]

/-- `PROHIBITED_PATTERNS`: category name, then for each pattern its regex
source text and its embedding.  All literals are lowercase because the tool
scans `text.lower()` with `re.IGNORECASE`. -/
def PROHIBITED_PATTERNS : List (String × List (String × RE)) :=
  [("guaranteed_returns",
    [("guaranteed?\\s+returns?",
      rseq [lits "guarantee", .optChar 'd', wsPlus, lits "return", .optChar 's']),
     ("guaranteed?\\s+\\d+%",
      rseq [lits "guarantee", .optChar 'd', wsPlus, .plusCls isDigitChar, .lit '%']),
     ("guaranteed?\\s+profit",
      rseq [lits "guarantee", .optChar 'd', wsPlus, lits "profit"]),
     ("risk-free\\s+returns?",
      rseq [lits "risk-free", wsPlus, lits "return", .optChar 's']),
     ("no\\s+risk", rseq [lits "no", wsPlus, lits "risk"]),
     ("cannot\\s+lose", rseq [lits "cannot", wsPlus, lits "lose"]),
     ("will\\s+definitely", rseq [lits "will", wsPlus, lits "definitely"])]),
   ("specific_predictions",
    [("will\\s+(definitely|certainly|surely)\\s+(rise|increase|go\\s+up|gain)",
      rseq [lits "will", wsPlus,
            alts [lits "definitely", lits "certainly", lits "surely"], wsPlus,
            alts [lits "rise", lits "increase", rseq [lits "go", wsPlus, lits "up"],
                  lits "gain"]]),
     ("guaranteed?\\s+to\\s+(double|triple)",
      rseq [lits "guarantee", .optChar 'd', wsPlus, lits "to", wsPlus,
            alts [lits "double", lits "triple"]]),
     ("certain\\s+to\\s+(outperform|beat)",
      rseq [lits "certain", wsPlus, lits "to", wsPlus,
            alts [lits "outperform", lits "beat"]])]),
   ("unlicensed_advice",
    [("you\\s+should\\s+(buy|sell|purchase)\\s+(?!consider|evaluate)",
      unlicensedAdviceRE),
     ("I\\s+recommend\\s+buying",
      rseq [lits "i", wsPlus, lits "recommend", wsPlus, lits "buying"]),
     ("invest\\s+all\\s+your",
      rseq [lits "invest", wsPlus, lits "all", wsPlus, lits "your"])]),
   ("market_manipulation",
    [("insider\\s+information", rseq [lits "insider", wsPlus, lits "information"]),
     ("pump\\s+and\\s+dump", rseq [lits "pump", wsPlus, lits "and", wsPlus, lits "dump"]),
     ("manipulate\\s+the\\s+market",
      rseq [lits "manipulate", wsPlus, lits "the", wsPlus, lits "market"])])]

/-- `REQUIRED_DISCLAIMERS`. -/
def REQUIRED_DISCLAIMERS : List (String × List String) :=
  [("ai_disclosure", ["AI", "artificial intelligence", "probabilistic", "agentic AI"]),
   ("general_disclaimer", ["not constitute", "educational", "informational purposes"]),
   ("professional_advice", ["licensed", "qualified professional", "financial advisor"]),
   ("risk_warning", ["risk", "loss", "principal", "past performance"])]

/-- `RISK_TYPES`. -/
def RISK_TYPES : List String :=
  ["market risk", "credit risk", "liquidity risk", "volatility",
   "loss of principal", "interest rate risk", "inflation risk"]

/-- One detected problem.  Python issues are dictionaries whose key sets vary
by emitting check; absent keys are `none`. -/
structure Issue where
  severity : String
  issue : Option String := none
  requirement : Option String := none
  type : Option String := none
  pattern : Option String := none
  matched_text : Option String := none
  context : Option String := none
  regulation : Option String := none
deriving DecidableEq

/-- Result of `_check_ai_disclosure`. -/
structure AIDisclosureResult where
  passed : Bool
  has_ai_mention : Bool
  has_probabilistic_warning : Bool
  has_professional_advice_warning : Bool
  issues : List Issue
deriving DecidableEq

/-- Result of `_check_prohibited_content`. -/
structure ProhibitedResult where
  passed : Bool
  violations_detected : Nat
  issues : List Issue
deriving DecidableEq

/-- Result of `_check_required_disclaimers`. -/
structure DisclaimerResult where
  passed : Bool
  present : List String
  missing : List String
  total_required : Nat
deriving DecidableEq

/-- Result of `_check_risk_disclosure`. -/
structure RiskResult where
  passed : Bool
  disclosed_risks : List String
  missing_risks : List String
  disclosure_count : Nat
  minimum_required : Nat
deriving DecidableEq

/-- Result of `_check_content_type_specific`. -/
structure TypeSpecificResult where
  passed : Bool
  issues : List Issue
deriving DecidableEq

/-- The `checks_performed` mapping; `risk_disclosure` is absent for content
types that are not investment-related. -/
structure ChecksPerformed where
  ai_disclosure : AIDisclosureResult
  prohibited_content : ProhibitedResult
  required_disclaimers : DisclaimerResult
  risk_disclosure : Option RiskResult
  content_type_specific : TypeSpecificResult
deriving DecidableEq

/-- A compliance validation report.  The happy path fills the first block of
fields; the exception handler returns only `overall_status`, `error` and
`recommendation`, so every key that can be absent is an `Option`. -/
structure Report where
  overall_status : String
  validation_timestamp : Option String := none
  response_type : Option String := none
  strict_mode : Option Bool := none
  checks_performed : Option ChecksPerformed := none
  issues_found : Option (List Issue) := none
  missing_elements : Option (List String) := none
  recommendations : Option (List String) := none
  error : Option String := none
  recommendation : Option String := none
deriving DecidableEq

/-- The result `_check_ai_disclosure` builds from its three detection
booleans and the strictness flag. -/
def ai_result (has_ai_mention has_probabilistic has_professional_advice_warning
    strict_mode : Bool) : AIDisclosureResult :=
  let passed := has_ai_mention && (has_probabilistic || !strict_mode) &&
    has_professional_advice_warning
  let issues :=
    (if !has_ai_mention then
       [{ severity := "CRITICAL", issue := some "Missing AI system disclosure",
          requirement := some "Must disclose that response is AI-generated" : Issue }]
     else []) ++
    (if !has_probabilistic && strict_mode then
       [{ severity := "CRITICAL", issue := some "Missing probabilistic nature disclosure",
          requirement :=
            some "Must warn that AI systems are probabilistic and can make mistakes" : Issue }]
     else []) ++
    (if !has_professional_advice_warning then
       [{ severity := "HIGH", issue := some "Missing professional advice consultation warning",
          requirement := some "Must advise users to consult licensed professionals" : Issue }]
     else [])
  { passed := passed, has_ai_mention := has_ai_mention,
    has_probabilistic_warning := has_probabilistic,
    has_professional_advice_warning := has_professional_advice_warning,
    issues := issues }

/-- `_check_ai_disclosure`: case-insensitive keyword membership for the AI
mention, the probabilistic-nature warning and the professional-advice
warning. -/
def check_ai_disclosure (text : String) (strict_mode : Bool) : AIDisclosureResult :=
  let text_lower := lowerStr text
  ai_result
    ((["ai", "artificial intelligence", "ai-generated", "ai-powered"] : List String).any
      (fun term => containsL term.data text_lower))
    (containsL ("probabilistic").data text_lower ||
     containsL ("may contain errors").data text_lower ||
     containsL ("can make mistakes").data text_lower)
    ((["not a substitute", "consult", "licensed", "qualified professional"] : List String).any
      (fun term => containsL term.data text_lower))
    strict_mode

/-- The matches of all prohibited patterns over `text.lower()`, tagged with
their category and regex source text:
`(category, pattern source, (start, end, matched characters))`. -/
def prohibitedSpans (text : String) : List (String × String × Nat × Nat × List Char) :=
  let text_lower := lowerStr text
  PROHIBITED_PATTERNS.flatMap (fun vt =>
    vt.2.flatMap (fun pr =>
      (findIter pr.2 text_lower).map (fun m => (vt.1, pr.1, m))))

/-- The CRITICAL issue built for one prohibited-pattern match.  Match
positions come from `text.lower()`; the context window slices the original
`text`, 30 characters each side, clipped to the string bounds (`Nat`
subtraction is the `max 0` clip), and is then `strip()`ped. -/
def prohibitedIssueOf (text : String) (m : String × String × Nat × Nat × List Char) :
    Issue :=
  { severity := "CRITICAL",
    type := some m.1,
    pattern := some m.2.1,
    matched_text := some m.2.2.2.2.asString,
    context := some (stripL ((text.data.drop (m.2.2.1 - 30)).take
      (min text.data.length (m.2.2.2.1 + 30) - (m.2.2.1 - 30)))).asString,
    regulation :=
      some "SEC/FINRA regulations prohibit guarantees and misleading statements" }

/-- `_check_prohibited_content`. -/
def check_prohibited_content (text : String) : ProhibitedResult :=
  let detected := (prohibitedSpans text).map (prohibitedIssueOf text)
  { passed := detected.length == 0,
    violations_detected := detected.length,
    issues := detected }

/-- `_check_required_disclaimers`. -/
def check_required_disclaimers (text : String) (response_type : String)
    (strict_mode : Bool) : DisclaimerResult :=
  let text_lower := lowerStr text
  let hasCat := fun (cat : String × List String) =>
    cat.2.any (fun kw => containsL (kw.data.map Char.toLower) text_lower)
  let present := (REQUIRED_DISCLAIMERS.filter hasCat).map (fun cat => cat.1)
  let missing0 := (REQUIRED_DISCLAIMERS.filter (fun cat => !hasCat cat)).map (fun cat => cat.1)
  let missing1 :=
    if response_type == "tax_advice" && !containsL ("tax professional").data text_lower then
      missing0 ++ ["tax_advice_limitation"]
    else missing0
  let missing2 :=
    if response_type == "legal_advice" && !containsL ("legal").data text_lower &&
        !containsL ("attorney").data text_lower then
      missing1 ++ ["legal_advice_limitation"]
    else missing1
  let passed := if strict_mode then missing2.length == 0 else decide (2 ≤ present.length)
  { passed := passed, present := present, missing := missing2,
    total_required := REQUIRED_DISCLAIMERS.length }

/-- `_check_risk_disclosure`. -/
def check_risk_disclosure (text : String) (strict_mode : Bool) : RiskResult :=
  let text_lower := lowerStr text
  let disclosed_risks := RISK_TYPES.filter (fun rt => containsL rt.data text_lower)
  let missingR := RISK_TYPES.filter (fun rt => !containsL rt.data text_lower)
  let min_required := if strict_mode then 3 else 1
  let passed := decide (min_required ≤ disclosed_risks.length)
  { passed := passed, disclosed_risks := disclosed_risks,
    missing_risks := if passed then [] else missingR,
    disclosure_count := disclosed_risks.length,
    minimum_required := min_required }

/-- `_check_content_type_specific`. -/
def check_content_type_specific (text : String) (response_type : String) :
    TypeSpecificResult :=
  let text_lower := lowerStr text
  let issues :=
    if response_type == "investment_advice" then
      if !((["risk tolerance", "time horizon", "financial situation",
             "investment objectives"] : List String).any
            (fun term => containsL term.data text_lower)) then
        [{ severity := "HIGH",
           issue := some "Investment advice lacks suitability considerations",
           requirement :=
             some "Must consider client's risk tolerance, time horizon, and financial situation"
           : Issue }]
      else []
    else if response_type == "tax_advice" then
      if !containsL ("tax professional").data text_lower &&
          !containsL ("cpa").data text_lower then
        [{ severity := "CRITICAL", issue := some "Tax advice without proper disclaimer",
           requirement := some "Must direct users to consult tax professionals/CPAs"
           : Issue }]
      else []
    else if response_type == "legal_advice" then
      if !containsL ("attorney").data text_lower &&
          !containsL ("legal professional").data text_lower then
        [{ severity := "CRITICAL", issue := some "Legal advice without proper disclaimer",
           requirement := some "Must direct users to consult licensed attorneys" : Issue }]
      else []
    else []
  { passed := issues.length == 0, issues := issues }

/-- The `issues_found` list of a validation run (flattened from the checks
whose `passed` is false, in the order the checks run). -/
def reportIssues (response_text response_type : String) (strict_mode : Bool) :
    List Issue :=
  let ai := check_ai_disclosure response_text strict_mode
  let proh := check_prohibited_content response_text
  let typeSpec := check_content_type_specific response_text response_type
  (if ai.passed then [] else ai.issues) ++
  (if proh.passed then [] else proh.issues) ++
  (if typeSpec.passed then [] else typeSpec.issues)

/-- The `missing_elements` list of a validation run (AI-disclosure omission,
then missing disclaimers, then, for investment-related types, the missing
risk types). -/
def reportMissing (response_text response_type : String) (strict_mode : Bool) :
    List String :=
  let ai := check_ai_disclosure response_text strict_mode
  let discl := check_required_disclaimers response_text response_type strict_mode
  (if ai.passed then [] else ["AI disclosure statement"]) ++
  (if discl.passed then [] else discl.missing) ++
  (if response_type ∈ (["investment_advice", "product_explanation",
       "market_analysis"] : List String) then
     let rr := check_risk_disclosure response_text strict_mode
     if rr.passed then [] else rr.missing_risks
   else [])

/-- The `overall_status` value: strict precedence of `REJECTED` (AI
disclosure or prohibited content failed), then `REQUIRES_MODIFICATION`
(some missing element), then `APPROVED`. -/
def overallOf (response_text response_type : String) (strict_mode : Bool) : String :=
  if !(check_ai_disclosure response_text strict_mode).passed ||
      !(check_prohibited_content response_text).passed then "REJECTED"
  else if !(reportMissing response_text response_type strict_mode).isEmpty then
    "REQUIRES_MODIFICATION"
  else "APPROVED"

/-- The body of `validate_compliance` (the `try` block).  It is a total
function of its inputs; the `Except` type records that Python would route
any raised exception to the handler embedded in `catchReport`. -/
def validate_compliance_body (response_text response_type : String)
    (strict_mode : Bool) : Except String Report :=
  let ai := check_ai_disclosure response_text strict_mode
  let proh := check_prohibited_content response_text
  let discl := check_required_disclaimers response_text response_type strict_mode
  let risk : Option RiskResult :=
    if response_type ∈ (["investment_advice", "product_explanation",
        "market_analysis"] : List String) then
      some (check_risk_disclosure response_text strict_mode)
    else none
  let typeSpec := check_content_type_specific response_text response_type
  let missing := reportMissing response_text response_type strict_mode
  let overall := overallOf response_text response_type strict_mode
  let recs0 :=
    if !ai.passed || !proh.passed then
      ["CRITICAL: Response contains critical compliance violations and must be rejected or significantly modified."]
    else if !missing.isEmpty then
      ["Response requires modifications to add missing compliance elements."]
    else
      ["Response meets compliance requirements."]
  let recs := recs0 ++
    (if !missing.isEmpty then
       ["Add the following elements: " ++ String.intercalate ", " missing]
     else [])
  Except.ok
    { overall_status := overall,
      validation_timestamp := some "Current validation run",
      response_type := some response_type,
      strict_mode := some strict_mode,
      checks_performed := some
        { ai_disclosure := ai, prohibited_content := proh,
          required_disclaimers := discl, risk_disclosure := risk,
          content_type_specific := typeSpec },
      issues_found := some (reportIssues response_text response_type strict_mode),
      missing_elements := some missing,
      recommendations := some recs,
      error := none, recommendation := none }

/-- The `except Exception` handler of `validate_compliance`: a raised
exception is converted into an `ERROR` report preserving the message. -/
def catchReport (b : Except String Report) : Report :=
  match b with
  | .ok r => r
  | .error e =>
    { overall_status := "ERROR", error := some e,
      recommendation := some "Manual review required due to validation error" }

/-- `validate_compliance`. -/
def validate_compliance (response_text response_type : String)
    (strict_mode : Bool) : Report :=
  catchReport (validate_compliance_body response_text response_type strict_mode)

/-- The issues of a report (`issues_found`, empty when absent). -/
def issuesOf (r : Report) : List Issue := r.issues_found.getD []

/-- The prohibited-content check flags text `t` with an `unlicensed_advice`
violation: the check fails and some emitted issue is CRITICAL with that
category. -/
def flagsUnlicensed (t : String) : Prop :=
  (check_prohibited_content t).passed = false ∧
  ∃ i ∈ (check_prohibited_content t).issues,
    i.severity = "CRITICAL" ∧ i.type = some "unlicensed_advice"

/-! ### Helper lemmas -/

theorem run_litsL (cs : List Char) (s : List Char) :
    run (litsL cs) s = if isPrefixL cs s then [s.drop cs.length] else [] := by
  induction cs generalizing s with
  | nil => simp [litsL, run, isPrefixL]
  | cons c cs ih =>
    cases s with
    | nil => simp [litsL, run, isPrefixL]
    | cons d rest =>
      cases h : d == c with
      | true => simp [litsL, run, isPrefixL, h, ih]
      | false => simp [litsL, run, isPrefixL, h]

theorem filter_eq_self_of_filter_not_nil {α : Type} (p : α → Bool)
    (l : List α) (h : l.filter (fun x => !p x) = []) : l.filter p = l := by
  rw [List.filter_eq_self]
  intro a ha
  by_contra hpa
  have hmem : a ∈ l.filter (fun x => !p x) := by
    refine List.mem_filter.mpr ⟨ha, ?_⟩
    simp [Bool.not_eq_true] at hpa
    simp [hpa]
  rw [h] at hmem
  cases hmem

theorem findIterAux_all_nil (r : RE) :
    ∀ (fuel : Nat) (s : List Char) (pos : Nat), s.length < fuel →
      findIterAux r fuel s pos = [] → ∀ t : List Char, (∃ a, s = a ++ t) →
      run r t = [] := by
  intro fuel
  induction fuel with
  | zero => intro s pos h; omega
  | succ fuel ih =>
    intro s pos hlen hnil t hex
    obtain ⟨a, ha⟩ := hex
    cases hrun : (run r s).head? with
    | some rem =>
      exfalso
      simp only [findIterAux, hrun] at hnil
      split at hnil <;> simp at hnil
    | none =>
      have hrs : run r s = [] := by
        cases hs : run r s with
        | nil => rfl
        | cons x xs => rw [hs] at hrun; cases hrun
      cases s with
      | nil =>
        have ht : t = [] := (List.append_eq_nil.mp ha.symm).2
        rw [ht]
        exact hrs
      | cons c rest =>
        simp only [findIterAux, hrun] at hnil
        cases a with
        | nil =>
          have ht : t = c :: rest := by
            rw [List.nil_append] at ha
            exact ha.symm
          rw [ht]; exact hrs
        | cons a0 a' =>
          have hrest : rest = a' ++ t := by
            rw [List.cons_append] at ha
            injection ha
          exact ih rest (pos + 1) (by simp at hlen ⊢; omega) hnil t ⟨a', hrest⟩

theorem findIter_ne_nil (r : RE) (s t : List Char) (hsub : ∃ a, s = a ++ t)
    (hm : run r t ≠ []) : findIter r s ≠ [] := by
  intro hnil
  exact hm (findIterAux_all_nil r (s.length + 1) s 0 (by omega) hnil t hsub)

theorem ai_result_passed_relax (a p c : Bool)
    (h : (ai_result a p c true).passed = true) :
    (ai_result a p c false).passed = true := by
  revert h; revert a p c; decide

theorem ai_result_issues_nil (a p c s : Bool)
    (h : (ai_result a p c s).passed = true) :
    (ai_result a p c s).issues = [] := by
  revert h; revert a p c s; decide

theorem ai_result_critical_not_passed (a p c s : Bool)
    (h : ∃ i ∈ (ai_result a p c s).issues, i.severity = "CRITICAL") :
    (ai_result a p c s).passed = false := by
  revert h; revert a p c s; decide

theorem discl_missing_strict_indep (t ct : String) :
    (check_required_disclaimers t ct true).missing =
      (check_required_disclaimers t ct false).missing := rfl

theorem discl_present_strict_indep (t ct : String) :
    (check_required_disclaimers t ct true).present =
      (check_required_disclaimers t ct false).present := rfl

theorem risk_disclosed_strict_indep (t : String) :
    (check_risk_disclosure t true).disclosed_risks =
      (check_risk_disclosure t false).disclosed_risks := rfl

/-! ### Claim theorems -/

/-- C1: for every request (the embedded evaluation raises no internal
exception), the report's `overall_status` is `REJECTED` iff the
AI-disclosure check failed or the prohibited-content check failed;
otherwise `REQUIRES_MODIFICATION` iff the report's `missing_elements` list
is non-empty; otherwise `APPROVED`. -/
theorem overall_status_precedence (t ct : String) (s : Bool) :
    (validate_compliance t ct s).overall_status =
      if (check_ai_disclosure t s).passed = false ∨
          (check_prohibited_content t).passed = false then "REJECTED"
      else if (validate_compliance t ct s).missing_elements ≠ some [] then
        "REQUIRES_MODIFICATION"
      else "APPROVED" := by
  have h1 : (validate_compliance t ct s).overall_status = overallOf t ct s := rfl
  have h2 : (validate_compliance t ct s).missing_elements =
      some (reportMissing t ct s) := rfl
  rw [h1, h2]
  unfold overallOf
  cases hai : (check_ai_disclosure t s).passed <;>
    cases hp : (check_prohibited_content t).passed <;>
      cases hm : reportMissing t ct s <;>
        simp [hai, hp, hm]

/-- C3: `validate_compliance` is a pure function of
`(text, contentType, strict)`: two evaluations of the same input are equal,
and the recorded timestamp is the constant label the code stores (no clock
is read). -/
theorem validate_compliance_deterministic (t ct : String) (s : Bool) :
    validate_compliance t ct s = validate_compliance t ct s ∧
    (validate_compliance t ct s).validation_timestamp =
      some "Current validation run" :=
  ⟨rfl, rfl⟩

/-- C6: `validate_compliance` is the exception handler `catchReport` applied
to the body; a body exception `e` becomes a report whose `overall_status` is
`ERROR` and whose `error` field preserves the message; and the embedded body
is total (it never produces an exception), so no exception propagates. -/
theorem errors_caught_and_reported (t ct e : String) (s : Bool) :
    validate_compliance t ct s = catchReport (validate_compliance_body t ct s) ∧
    (catchReport (Except.error e)).overall_status = "ERROR" ∧
    (catchReport (Except.error e)).error = some e ∧
    ∃ r : Report, validate_compliance_body t ct s = Except.ok r :=
  ⟨rfl, rfl, rfl, ⟨_, rfl⟩⟩

/-- C10: any text containing the two-character sequence `ai` (after
lowercasing), even inside an unrelated word, makes `has_ai_mention` true,
so the CRITICAL `Missing AI system disclosure` issue is never emitted for
such text. -/
theorem ai_mention_loose_substring (t : String) (s : Bool)
    (h : containsL (("ai").data) (lowerStr t) = true) :
    (check_ai_disclosure t s).has_ai_mention = true ∧
    ∀ i ∈ (check_ai_disclosure t s).issues,
      i.issue ≠ some "Missing AI system disclosure" := by
  have hmention : (check_ai_disclosure t s).has_ai_mention = true := by
    unfold check_ai_disclosure ai_result
    simp [List.any_cons, h]
  refine ⟨hmention, ?_⟩
  intro i hi
  have hA : ((["ai", "artificial intelligence", "ai-generated", "ai-powered"] :
      List String).any (fun term => containsL term.data (lowerStr t))) = true := by
    simp [List.any_cons, h]
  unfold check_ai_disclosure ai_result at hi
  simp only [hA, Bool.not_true, Bool.false_eq_true, if_false, List.nil_append] at hi
  rcases List.mem_append.mp hi with h2 | h3
  · split at h2
    · simp at h2; subst h2; decide
    · cases h2
  · split at h3
    · simp at h3; subst h3; decide
    · cases h3

/-- Witness for C10 at a text whose only occurrence of `ai` is inside the
word `maintain`. -/
theorem ai_mention_loose_substring_witness :
    containsL (("ai").data) (lowerStr "We maintain detailed records") = true ∧
    (check_ai_disclosure "We maintain detailed records" true).has_ai_mention = true :=
  ⟨by decide,
   (ai_mention_loose_substring "We maintain detailed records" true (by decide)).1⟩

/-- Counterexample to C2 as stated.  First input: a `tax_advice` request
whose content-type-specific check emits a CRITICAL issue, yet the report's
status is `REQUIRES_MODIFICATION`, not `REJECTED` — so a CRITICAL issue does
not always contribute to rejection.  Second input: a report whose only issue
is the HIGH-severity professional-advice warning, yet the status is
`REJECTED` (the relaxed AI-disclosure check fails on that HIGH-only
dimension) — so HIGH severity alone can trigger `REJECTED`. -/
theorem critical_severity_cex :
    (∃ i ∈ issuesOf (validate_compliance
        "ai probabilistic licensed not constitute risk" "tax_advice" true),
      i.severity = "CRITICAL") ∧
    (validate_compliance "ai probabilistic licensed not constitute risk"
        "tax_advice" true).overall_status = "REQUIRES_MODIFICATION" ∧
    (validate_compliance "ai probabilistic licensed not constitute risk"
        "tax_advice" true).overall_status ≠ "REJECTED" ∧
    (∀ i ∈ issuesOf (validate_compliance "ai" "general_info" false),
      i.severity = "HIGH") ∧
    issuesOf (validate_compliance "ai" "general_info" false) ≠ [] ∧
    (validate_compliance "ai" "general_info" false).overall_status = "REJECTED" := by
  decide

/-- C2 amended: a CRITICAL issue emitted by the AI-disclosure check or any
issue of the prohibited-content check (all of which are CRITICAL) forces
`REJECTED`; conversely, when those two checks pass, the status is never
`REJECTED`, whatever issues (including CRITICAL ones from the
content-type-specific check) the report carries. -/
theorem critical_checks_force_rejected (t ct : String) (s : Bool) :
    (((∃ i ∈ (check_ai_disclosure t s).issues, i.severity = "CRITICAL") ∨
        (check_prohibited_content t).issues ≠ []) →
      (validate_compliance t ct s).overall_status = "REJECTED") ∧
    ((check_ai_disclosure t s).passed = true →
      (check_prohibited_content t).passed = true →
      (validate_compliance t ct s).overall_status ≠ "REJECTED") := by
  have hstat : (validate_compliance t ct s).overall_status = overallOf t ct s := rfl
  constructor
  · intro hcase
    rw [hstat]
    unfold overallOf
    rcases hcase with hai | hproh
    · have : (check_ai_disclosure t s).passed = false := by
        unfold check_ai_disclosure at hai ⊢
        exact ai_result_critical_not_passed _ _ _ _ hai
      rw [this]
      simp
    · have : (check_prohibited_content t).passed = false := by
        unfold check_prohibited_content at hproh ⊢
        simp only at hproh ⊢
        rw [beq_eq_false_iff_ne]
        intro hlen
        exact hproh (List.length_eq_zero.mp hlen)
      rw [this]
      simp
  · intro hai hproh
    rw [hstat]
    unfold overallOf
    rw [hai, hproh]
    cases hm : (reportMissing t ct s).isEmpty <;> simp

/-- Witness for C2's amended theorem: `guaranteed returns` is a
prohibited-content violation, and the theorem forces `REJECTED` there. -/
theorem critical_checks_force_rejected_witness :
    (validate_compliance "guaranteed returns" "general_info" true).overall_status =
      "REJECTED" :=
  (critical_checks_force_rejected "guaranteed returns" "general_info" true).1
    (Or.inr (by decide))

/-- C5: for investment-related content types the risk-disclosure check is
recorded in the report and passes iff the number of the seven risk-type
phrases present in the lowercased text reaches 3 (strict) or 1 (relaxed);
`missing_risks` is empty on pass and lists the absent risk types on fail;
exactly 3 disclosed risk types passes under strict mode and exactly 2 fails;
for every other content type the check is not run. -/
theorem risk_disclosure_correct (t ct : String) (s : Bool) :
    ((ct ∈ (["investment_advice", "product_explanation", "market_analysis"] :
        List String) →
      ((validate_compliance t ct s).checks_performed).map
          ChecksPerformed.risk_disclosure =
        some (some (check_risk_disclosure t s))) ∧
     (ct ∉ (["investment_advice", "product_explanation", "market_analysis"] :
        List String) →
      ((validate_compliance t ct s).checks_performed).map
          ChecksPerformed.risk_disclosure = some none)) ∧
    ((check_risk_disclosure t s).passed = true ↔
      (if s then 3 else 1) ≤
        (RISK_TYPES.filter (fun rt => containsL rt.data (lowerStr t))).length) ∧
    ((check_risk_disclosure t s).passed = true →
      (check_risk_disclosure t s).missing_risks = []) ∧
    ((check_risk_disclosure t s).passed = false →
      (check_risk_disclosure t s).missing_risks =
        RISK_TYPES.filter (fun rt => !containsL rt.data (lowerStr t))) ∧
    (s = true →
      ((RISK_TYPES.filter (fun rt => containsL rt.data (lowerStr t))).length = 3 →
        (check_risk_disclosure t s).passed = true) ∧
      ((RISK_TYPES.filter (fun rt => containsL rt.data (lowerStr t))).length = 2 →
        (check_risk_disclosure t s).passed = false)) := by
  refine ⟨⟨?_, ?_⟩, ?_, ?_, ?_, ?_⟩
  · intro hmem
    have : (validate_compliance t ct s).checks_performed = some
        { ai_disclosure := check_ai_disclosure t s,
          prohibited_content := check_prohibited_content t,
          required_disclaimers := check_required_disclaimers t ct s,
          risk_disclosure :=
            if ct ∈ (["investment_advice", "product_explanation",
                "market_analysis"] : List String) then
              some (check_risk_disclosure t s)
            else none,
          content_type_specific := check_content_type_specific t ct } := rfl
    rw [this]
    simp [hmem]
  · intro hmem
    have : (validate_compliance t ct s).checks_performed = some
        { ai_disclosure := check_ai_disclosure t s,
          prohibited_content := check_prohibited_content t,
          required_disclaimers := check_required_disclaimers t ct s,
          risk_disclosure :=
            if ct ∈ (["investment_advice", "product_explanation",
                "market_analysis"] : List String) then
              some (check_risk_disclosure t s)
            else none,
          content_type_specific := check_content_type_specific t ct } := rfl
    rw [this]
    simp [hmem]
  · unfold check_risk_disclosure
    cases s <;> simp
  · intro hp
    unfold check_risk_disclosure at hp ⊢
    simp only at hp ⊢
    rw [hp]
    simp
  · intro hp
    unfold check_risk_disclosure at hp ⊢
    simp only at hp ⊢
    rw [hp]
    simp
  · intro hs
    subst hs
    constructor
    · intro h3
      unfold check_risk_disclosure
      simp [h3]
    · intro h2
      unfold check_risk_disclosure
      simp [h2]

/-- Witness for C5: `investment_advice` text disclosing exactly the three
risk types `market risk`, `credit risk`, `volatility` under strict mode. -/
theorem risk_disclosure_correct_witness :
    ((validate_compliance "market risk credit risk volatility"
        "investment_advice" true).checks_performed).map
      ChecksPerformed.risk_disclosure =
        some (some (check_risk_disclosure "market risk credit risk volatility"
          true)) ∧
    (check_risk_disclosure "market risk credit risk volatility" true).passed =
      true :=
  ⟨(risk_disclosure_correct "market risk credit risk volatility"
      "investment_advice" true).1.1 (by decide),
   (risk_disclosure_correct "market risk credit risk volatility"
      "investment_advice" true).2.1.mpr (by decide)⟩

/-- C9: a `response_type` outside the six-value content-type enum does not
fail: no risk-disclosure check runs, no content-type addendum applies, and
the report equals the `general_info` report on the same text and strictness
apart from the recorded `response_type` label. -/
theorem unknown_response_type_like_general_info (t rt : String) (s : Bool)
    (h : rt ∉ (["investment_advice", "general_info", "product_explanation",
        "market_analysis", "tax_advice", "legal_advice"] : List String)) :
    validate_compliance t rt s =
      { validate_compliance t "general_info" s with response_type := some rt } := by
  simp only [List.mem_cons, List.not_mem_nil, or_false, not_or] at h
  obtain ⟨h1, h2, h3, h4, h5, h6⟩ := h
  have hbeq1 : (rt == "tax_advice") = false := beq_eq_false_iff_ne.mpr h5
  have hbeq2 : (rt == "legal_advice") = false := beq_eq_false_iff_ne.mpr h6
  have hbeq3 : (rt == "investment_advice") = false := beq_eq_false_iff_ne.mpr h1
  have g1 : (("general_info" : String) == "tax_advice") = false := by decide
  have g2 : (("general_info" : String) == "legal_advice") = false := by decide
  have g3 : (("general_info" : String) == "investment_advice") = false := by decide
  have hmemr : rt ∉ (["investment_advice", "product_explanation",
      "market_analysis"] : List String) := by
    simp [h1, h3, h4]
  have gmem : ("general_info" : String) ∉ (["investment_advice",
      "product_explanation", "market_analysis"] : List String) := by decide
  have hd : check_required_disclaimers t rt s =
      check_required_disclaimers t "general_info" s := by
    unfold check_required_disclaimers
    simp [hbeq1, hbeq2, g1, g2]
  have hts : check_content_type_specific t rt =
      check_content_type_specific t "general_info" := by
    unfold check_content_type_specific
    simp [hbeq1, hbeq2, hbeq3, g1, g2, g3]
  have hm : reportMissing t rt s = reportMissing t "general_info" s := by
    unfold reportMissing
    rw [hd, if_neg hmemr, if_neg gmem]
  have hi : reportIssues t rt s = reportIssues t "general_info" s := by
    unfold reportIssues
    rw [hts]
  have ho : overallOf t rt s = overallOf t "general_info" s := by
    unfold overallOf
    rw [hm]
  unfold validate_compliance validate_compliance_body catchReport
  simp only [hd, hts, hm, hi, ho, if_neg hmemr, if_neg gmem]

/-- Witness for C9 at the unknown content type `poetry`. -/
theorem unknown_response_type_like_general_info_witness :
    validate_compliance "sample text" "poetry" true =
      { validate_compliance "sample text" "general_info" true with
        response_type := some "poetry" } :=
  unknown_response_type_like_general_info "sample text" "poetry" true (by decide)

theorem discl_relaxed_of_missing_nil (t ct : String)
    (h : (check_required_disclaimers t ct true).missing = []) :
    (check_required_disclaimers t ct false).passed = true := by
  have h0 : ((REQUIRED_DISCLAIMERS.filter (fun cat => !(cat.2.any (fun kw =>
      containsL (kw.data.map Char.toLower) (lowerStr t))))).map
        (fun cat => cat.1)) = [] := by
    unfold check_required_disclaimers at h
    simp only at h
    split at h
    · exact absurd h (by simp)
    · split at h
      · exact absurd h (by simp)
      · exact h
  have hfilter : REQUIRED_DISCLAIMERS.filter (fun cat => !(cat.2.any (fun kw =>
      containsL (kw.data.map Char.toLower) (lowerStr t)))) = [] :=
    List.map_eq_nil_iff.mp h0
  have hfull : REQUIRED_DISCLAIMERS.filter (fun cat => cat.2.any (fun kw =>
      containsL (kw.data.map Char.toLower) (lowerStr t))) = REQUIRED_DISCLAIMERS :=
    filter_eq_self_of_filter_not_nil _ _ hfilter
  have e : (check_required_disclaimers t ct false).passed =
      decide (2 ≤ ((REQUIRED_DISCLAIMERS.filter (fun cat => cat.2.any (fun kw =>
        containsL (kw.data.map Char.toLower) (lowerStr t)))).map
          (fun cat => cat.1)).length) := rfl
  rw [e, hfull]
  decide

theorem risk_relaxed_of_strict_contrib_nil (t : String)
    (h : (if (check_risk_disclosure t true).passed then []
          else (check_risk_disclosure t true).missing_risks) = []) :
    (check_risk_disclosure t false).passed = true := by
  have erel : (check_risk_disclosure t false).passed =
      decide (1 ≤ (RISK_TYPES.filter
        (fun rt => containsL rt.data (lowerStr t))).length) := rfl
  have estr : (check_risk_disclosure t true).passed =
      decide (3 ≤ (RISK_TYPES.filter
        (fun rt => containsL rt.data (lowerStr t))).length) := rfl
  cases hp : (check_risk_disclosure t true).passed with
  | true =>
    have h3 : 3 ≤ (RISK_TYPES.filter
        (fun rt => containsL rt.data (lowerStr t))).length := by
      rw [estr] at hp
      exact of_decide_eq_true hp
    rw [erel]
    exact decide_eq_true (by omega)
  | false =>
    exfalso
    rw [hp] at h
    simp only [Bool.false_eq_true, if_false] at h
    have emr : (check_risk_disclosure t true).missing_risks =
        (if (check_risk_disclosure t true).passed then [] else
          RISK_TYPES.filter (fun rt => !containsL rt.data (lowerStr t))) := rfl
    rw [emr, hp] at h
    simp only [Bool.false_eq_true, if_false] at h
    have hfull := filter_eq_self_of_filter_not_nil
      (fun rt => containsL rt.data (lowerStr t)) RISK_TYPES h
    rw [estr, hfull] at hp
    simp [RISK_TYPES] at hp

/-- C4: strictness monotonicity — a report `APPROVED` under `strict=true` is
also `APPROVED` (in particular not `REJECTED`) under `strict=false`. -/
theorem strictness_monotonicity (t ct : String)
    (h : (validate_compliance t ct true).overall_status = "APPROVED") :
    (validate_compliance t ct false).overall_status = "APPROVED" := by
  have hs : overallOf t ct true = "APPROVED" := h
  unfold overallOf at hs
  have hai : (check_ai_disclosure t true).passed = true := by
    by_contra hn
    rw [Bool.not_eq_true] at hn
    rw [hn] at hs
    simp at hs
  have hproh : (check_prohibited_content t).passed = true := by
    by_contra hn
    rw [Bool.not_eq_true] at hn
    rw [hn] at hs
    simp at hs
  have hmiss : reportMissing t ct true = [] := by
    rw [hai, hproh] at hs
    simp only [Bool.not_true, Bool.or_self, Bool.false_eq_true, if_false] at hs
    by_contra hn
    have hne : (reportMissing t ct true).isEmpty = false := by
      cases hq : reportMissing t ct true with
      | nil => exact absurd hq hn
      | cons a l => rfl
    rw [hne] at hs
    simp at hs
  have hcomp := hmiss
  unfold reportMissing at hcomp
  simp only [hai, if_true, List.nil_append] at hcomp
  obtain ⟨hdisc, hrisk⟩ := List.append_eq_nil.mp hcomp
  have hdm : (check_required_disclaimers t ct true).missing = [] := by
    cases hp : (check_required_disclaimers t ct true).passed with
    | false =>
      rw [hp] at hdisc
      simpa using hdisc
    | true =>
      have e : (check_required_disclaimers t ct true).passed =
          ((check_required_disclaimers t ct true).missing.length == 0) := rfl
      rw [e] at hp
      exact List.length_eq_zero.mp (by simpa using hp)
  have hair : (check_ai_disclosure t false).passed = true := by
    unfold check_ai_disclosure at hai ⊢
    exact ai_result_passed_relax _ _ _ hai
  show overallOf t ct false = "APPROVED"
  unfold overallOf
  rw [hair, hproh]
  simp only [Bool.not_true, Bool.or_self, Bool.false_eq_true, if_false]
  have hmr : reportMissing t ct false = [] := by
    unfold reportMissing
    simp only [hair, if_true, List.nil_append]
    rw [discl_relaxed_of_missing_nil t ct hdm]
    simp only [if_true, List.nil_append]
    by_cases hmem : ct ∈ (["investment_advice", "product_explanation",
        "market_analysis"] : List String)
    · rw [if_pos hmem]
      rw [if_pos hmem] at hrisk
      rw [risk_relaxed_of_strict_contrib_nil t hrisk]
      rfl
    · rw [if_neg hmem]
  rw [hmr]
  rfl

/-- Witness for C4: a text `APPROVED` under strict mode, and the relaxed
verdict the theorem yields. -/
theorem strictness_monotonicity_witness :
    (validate_compliance "ai probabilistic licensed not constitute risk"
        "general_info" true).overall_status = "APPROVED" ∧
    (validate_compliance "ai probabilistic licensed not constitute risk"
        "general_info" false).overall_status = "APPROVED" :=
  ⟨by decide,
   strictness_monotonicity "ai probabilistic licensed not constitute risk"
     "general_info" (by decide)⟩

/-- Counterexample to C8 as stated.  On the text `"   no risk   "` the single
prohibited-content match spans positions 3–10; the substring extending 30
characters each side clipped to the string bounds is the whole text, but the
emitted issue's `context` field is `"no risk"` — the code strips surrounding
whitespace from the window before storing it, so the claimed equality
fails. -/
theorem context_window_not_raw_cex :
    ((prohibitedSpans "   no risk   ").map (fun m => (m.2.2.1, m.2.2.2.1)) =
      [(3, 10)]) ∧
    ((("   no risk   ").data.drop (3 - 30)).take
        (min ("   no risk   ").data.length (10 + 30) - (3 - 30))).asString =
      "   no risk   " ∧
    ((check_prohibited_content "   no risk   ").issues.map (fun i => i.context) =
      [some "no risk"]) ∧
    ("no risk" : String) ≠ "   no risk   " := by
  decide

/-- C8 amended: every prohibited-pattern match yields a CRITICAL issue
carrying the category, the exact pattern source, the matched substring, and
a context equal to the substring of the original text extending 30
characters before the match start and 30 after the match end, clipped to
the string bounds and with surrounding whitespace stripped. -/
theorem prohibited_issue_fields (t : String) :
    (check_prohibited_content t).issues = (prohibitedSpans t).map (fun m =>
      { severity := "CRITICAL",
        type := some m.1,
        pattern := some m.2.1,
        matched_text := some m.2.2.2.2.asString,
        context := some (stripL ((t.data.drop (m.2.2.1 - 30)).take
          (min t.data.length (m.2.2.2.1 + 30) - (m.2.2.1 - 30)))).asString,
        regulation :=
          some "SEC/FINRA regulations prohibit guarantees and misleading statements"
        : Issue }) := rfl

theorem run_unlicensed_decomp (z : List Char) :
    run unlicensedAdviceRE (("you should buy").data ++ z) =
      (run (RE.plusCls isWsChar) z).flatMap
        (fun x => (run (RE.nlk (RE.alt (litsL (("consider").data))
          (litsL (("evaluate").data)))) x).flatMap (fun t => [t])) := by
  have hd : ("you should buy").data =
      ['y', 'o', 'u', ' ', 's', 'h', 'o', 'u', 'l', 'd', ' ', 'b', 'u', 'y'] := rfl
  rw [hd]
  have w1 : isWsChar ' ' = true := by decide
  have w2 : isWsChar 's' = false := by decide
  have w3 : isWsChar 'b' = false := by decide
  simp only [unlicensedAdviceRE, rseq, List.foldr, lits, alts, wsPlus,
    List.cons_append, List.nil_append]
  generalize hN : RE.nlk (RE.alt (litsL (("consider").data))
    (litsL (("evaluate").data))) = N
  simp [run, run_litsL, starCls, w1, w2, w3]

theorem consider_not_prefix_of_ws (c : Char) (u : List Char)
    (h : isWsChar c = true) :
    isPrefixL (("consider").data) (c :: u) = false ∧
    isPrefixL (("evaluate").data) (c :: u) = false := by
  constructor
  · have e : isPrefixL (("consider").data) (c :: u) =
        ((c == 'c') && isPrefixL (("onsider").data) u) := rfl
    rw [e]
    cases hc : c == 'c' with
    | false => rfl
    | true =>
      exfalso
      have hcc : c = 'c' := by simpa using hc
      rw [hcc] at h
      exact absurd h (by decide)
  · have e : isPrefixL (("evaluate").data) (c :: u) =
        ((c == 'e') && isPrefixL (("valuate").data) u) := rfl
    rw [e]
    cases hc : c == 'e' with
    | false => rfl
    | true =>
      exfalso
      have hcc : c = 'e' := by simpa using hc
      rw [hcc] at h
      exact absurd h (by decide)

theorem flags_of_run_ne (t : String) (z : List Char)
    (hsub : ∃ a, lowerStr t = a ++ z)
    (hne : run unlicensedAdviceRE z ≠ []) :
    flagsUnlicensed t := by
  have hfind : findIter unlicensedAdviceRE (lowerStr t) ≠ [] :=
    findIter_ne_nil unlicensedAdviceRE (lowerStr t) z hsub hne
  obtain ⟨m, hm⟩ : ∃ m, m ∈ findIter unlicensedAdviceRE (lowerStr t) :=
    List.exists_mem_of_ne_nil _ hfind
  have hspan : ("unlicensed_advice",
      "you\\s+should\\s+(buy|sell|purchase)\\s+(?!consider|evaluate)", m) ∈
        prohibitedSpans t := by
    unfold prohibitedSpans
    rw [List.mem_flatMap]
    refine ⟨("unlicensed_advice",
      [("you\\s+should\\s+(buy|sell|purchase)\\s+(?!consider|evaluate)",
        unlicensedAdviceRE),
       ("I\\s+recommend\\s+buying",
        rseq [lits "i", wsPlus, lits "recommend", wsPlus, lits "buying"]),
       ("invest\\s+all\\s+your",
        rseq [lits "invest", wsPlus, lits "all", wsPlus, lits "your"])]),
      ?_, ?_⟩
    · exact List.mem_cons_of_mem _ (List.mem_cons_of_mem _ (List.mem_cons_self _ _))
    · rw [List.mem_flatMap]
      refine ⟨("you\\s+should\\s+(buy|sell|purchase)\\s+(?!consider|evaluate)",
        unlicensedAdviceRE), List.mem_cons_self _ _, ?_⟩
      rw [List.mem_map]
      exact ⟨m, hm, rfl⟩
  have he : (check_prohibited_content t).issues =
      (prohibitedSpans t).map (prohibitedIssueOf t) := rfl
  constructor
  · have hp : (check_prohibited_content t).passed =
        (((prohibitedSpans t).map (prohibitedIssueOf t)).length == 0) := rfl
    rw [hp, beq_eq_false_iff_ne]
    intro hlen
    have hmap : (prohibitedSpans t).map (prohibitedIssueOf t) = [] :=
      List.length_eq_zero.mp hlen
    have hnil : prohibitedSpans t = [] := List.map_eq_nil_iff.mp hmap
    rw [hnil] at hspan
    cases hspan
  · refine ⟨prohibitedIssueOf t ("unlicensed_advice",
      "you\\s+should\\s+(buy|sell|purchase)\\s+(?!consider|evaluate)", m),
      ?_, rfl, rfl⟩
    rw [he]
    exact List.mem_map_of_mem (prohibitedIssueOf t) hspan

/-- Counterexample to C7 as stated.  The text `"you should buy"` contains the
phrase `you should buy`, yet the prohibited-content check flags nothing: the
pattern requires at least one whitespace character after `buy`, so an
occurrence at the end of the text is not an occurrence of the pattern. -/
theorem you_should_buy_unflagged_cex :
    containsL (("you should buy").data) (lowerStr "you should buy") = true ∧
    (check_prohibited_content "you should buy").violations_detected = 0 ∧
    (check_prohibited_content "you should buy").issues = [] ∧
    (check_prohibited_content "you should buy").passed = true := by
  decide

/-- C7 amended: the prohibited-content check does not flag every occurrence
of `you should buy` — the pattern requires at least one whitespace character
after the verb, so the phrase at the very end of a text, or separated from
`consider`/`evaluate` by exactly one whitespace character, is not matched
(the texts `you should buy` and `you should buy consider` produce no
violation) — but every text in which the phrase is followed by a whitespace
character and then either (a) a continuation beginning with a non-whitespace
character other than the qualifiers `consider`/`evaluate`, or (b) at least
one more whitespace character, whatever follows it (`\s+` backtracks before
the negative lookahead, so `you should buy  consider` with two spaces is
flagged), is flagged with a CRITICAL issue of the `unlicensed_advice`
category; and the phrase `you should consider buying` is never flagged. -/
theorem unlicensed_advice_flagging :
    (∀ (t : String) (a : List Char) (c0 : Char) (u : List Char),
        lowerStr t = a ++ ("you should buy").data ++ (c0 :: u) →
        isWsChar c0 = true →
        (((u.take 1).all (fun c => !isWsChar c) = true →
          isPrefixL (("consider").data) u = false →
          isPrefixL (("evaluate").data) u = false →
          flagsUnlicensed t) ∧
         (∀ (c1 : Char) (u' : List Char), u = c1 :: u' → isWsChar c1 = true →
          flagsUnlicensed t))) ∧
    (check_prohibited_content "you should buy consider").passed = true ∧
    (check_prohibited_content "you should buy consider").issues = [] ∧
    (check_prohibited_content "you should consider buying").passed = true ∧
    (check_prohibited_content "you should consider buying").issues = [] := by
  refine ⟨?_, by decide, by decide, by decide, by decide⟩
  intro t a c0 u hsplit hc0
  have hsub : ∃ a', lowerStr t = a' ++ (("you should buy").data ++ (c0 :: u)) :=
    ⟨a, by rw [hsplit, List.append_assoc]⟩
  have hplus : run (RE.plusCls isWsChar) (c0 :: u) =
      (if isWsChar c0 = true then starCls isWsChar u else []) := rfl
  constructor
  · intro hw h1 h2
    apply flags_of_run_ne t _ hsub
    rw [run_unlicensed_decomp, hplus, if_pos hc0]
    cases u with
    | nil => decide
    | cons d u' =>
      have hdw : isWsChar d = false := by simpa using hw
      rw [show starCls isWsChar (d :: u') = [d :: u'] by simp [starCls, hdw]]
      have hA : run (RE.alt (litsL (("consider").data))
          (litsL (("evaluate").data))) (d :: u') = [] := by
        have e2 : run (RE.alt (litsL (("consider").data))
            (litsL (("evaluate").data))) (d :: u') =
            run (litsL (("consider").data)) (d :: u') ++
              run (litsL (("evaluate").data)) (d :: u') := rfl
        rw [e2, run_litsL, run_litsL, h1, h2]
        rfl
      have en : run (RE.nlk (RE.alt (litsL (("consider").data))
          (litsL (("evaluate").data)))) (d :: u') =
          (if run (RE.alt (litsL (("consider").data))
              (litsL (("evaluate").data))) (d :: u') = []
           then [d :: u'] else []) := rfl
      simp only [List.flatMap_cons, List.flatMap_nil, List.append_nil]
      rw [en, hA]
      simp
  · intro c1 u' hu hc1
    subst hu
    apply flags_of_run_ne t _ hsub
    rw [run_unlicensed_decomp, hplus, if_pos hc0]
    have e2 : starCls isWsChar (c1 :: u') =
        (if isWsChar c1 = true then starCls isWsChar u' ++ [c1 :: u']
         else [c1 :: u']) := rfl
    rw [e2, if_pos hc1]
    intro hnil
    have hmem : (c1 :: u') ∈ starCls isWsChar u' ++ [c1 :: u'] :=
      List.mem_append_right _ (List.mem_singleton.mpr rfl)
    have hF : run (RE.nlk (RE.alt (litsL (("consider").data))
        (litsL (("evaluate").data)))) (c1 :: u') = [c1 :: u'] := by
      obtain ⟨p1, p2⟩ := consider_not_prefix_of_ws c1 u' hc1
      have hA : run (RE.alt (litsL (("consider").data))
          (litsL (("evaluate").data))) (c1 :: u') = [] := by
        have e3 : run (RE.alt (litsL (("consider").data))
            (litsL (("evaluate").data))) (c1 :: u') =
            run (litsL (("consider").data)) (c1 :: u') ++
              run (litsL (("evaluate").data)) (c1 :: u') := rfl
        rw [e3, run_litsL, run_litsL, p1, p2]
        rfl
      have en : run (RE.nlk (RE.alt (litsL (("consider").data))
          (litsL (("evaluate").data)))) (c1 :: u') =
          (if run (RE.alt (litsL (("consider").data))
              (litsL (("evaluate").data))) (c1 :: u') = []
           then [c1 :: u'] else []) := rfl
      rw [en, hA]
      simp
    have hmemF : (c1 :: u') ∈ (starCls isWsChar u' ++ [c1 :: u']).flatMap
        (fun x => (run (RE.nlk (RE.alt (litsL (("consider").data))
          (litsL (("evaluate").data)))) x).flatMap (fun t => [t])) := by
      rw [List.mem_flatMap]
      refine ⟨c1 :: u', hmem, ?_⟩
      rw [hF]
      simp
    rw [hnil] at hmemF
    cases hmemF

/-- Witness for C7's amended theorem: the single-whitespace sufficiency at
`you should buy stocks` and the backtracking sufficiency at
`you should buy  consider` (two spaces). -/
theorem unlicensed_advice_flagging_witness :
    flagsUnlicensed "you should buy stocks" ∧
    flagsUnlicensed "you should buy  consider" :=
  ⟨(unlicensed_advice_flagging.1 "you should buy stocks" [] ' ' (("stocks").data)
      (by decide) (by decide)).1 (by decide) (by decide) (by decide),
   (unlicensed_advice_flagging.1 "you should buy  consider" [] ' '
      (' ' :: ("consider").data) (by decide) (by decide)).2 ' ' (("consider").data)
      rfl (by decide)⟩
